import Mathlib

/-
  Shallow embedding of vtkPlusV4L2VideoSource
  (src/src/PlusDataCollection/V4L2/vtkPlusV4L2VideoSource.cxx and .h).

  The device session talks to the kernel through stat/open/ioctl/read/
  select/mmap/munmap/malloc/free/close.  Each embedded operation takes an
  explicit environment record holding the outcomes the kernel and the
  allocator would return for the calls the operation performs, threads the
  session state (the member variables of the class) explicitly, and emits a
  trace of externally visible resource and queue events.
-/

namespace V4L2

/-- PlusStatus from PlusCommon.h: PLUS_SUCCESS or PLUS_FAIL. -/
inductive PlusStatus
  | success
  | fail
deriving DecidableEq, Repr

/-- The V4L2_IO_METHOD enum of vtkPlusV4L2VideoSource.h
    (IO_METHOD_READ, IO_METHOD_MMAP, IO_METHOD_USERPTR). -/
inductive IOMethod
  | ioRead
  | ioMmap
  | ioUserptr
deriving DecidableEq, Repr

/-- Errno value EINTR (interrupted system call). -/
def EINTR : Nat := 4

/-- Result of one raw ioctl call: success, or failure with an errno. -/
inductive SysResult
  | ok
  | err (errno : Nat)
deriving DecidableEq, Repr

/-- Whether a raw call failed with EINTR. -/
def isEintr : SysResult → Bool
  | SysResult.ok => false
  | SysResult.err e => e == EINTR

/-- xioctl from the anonymous namespace of the .cxx: repeat the raw ioctl
    while it returns -1 with errno EINTR, and return the first other
    outcome.  The argument lists the outcomes successive raw calls would
    produce; none means every listed call was interrupted (the C loop
    would still be spinning). -/
def xioctl : List SysResult → Option SysResult
  | [] => none
  | r :: rest =>
    match r with
    | SysResult.ok => some SysResult.ok
    | SysResult.err e => if e == EINTR then xioctl rest else some (SysResult.err e)

/-- Pixel-format constant V4L2_PIX_FMT_YUYV (fourcc YUYV). -/
def V4L2_PIX_FMT_YUYV : Nat := 0x56595559

/-- Pixel-format constant V4L2_PIX_FMT_GREY (fourcc GREY). -/
def V4L2_PIX_FMT_GREY : Nat := 0x59455247

/-- Field-order constant V4L2_FIELD_NONE. -/
def V4L2_FIELD_NONE : Nat := 1

/-- Field-order constant V4L2_FIELD_INTERLACED. -/
def V4L2_FIELD_INTERLACED : Nat := 4

/-- The fmt.pix portion of a v4l2_format record: the fields the session
    reads and writes (width, height, pixelformat, field, sizeimage). -/
structure PixFormat where
  width : Nat
  height : Nat
  pixelformat : Nat
  pixfield : Nat
  sizeimage : Nat
deriving DecidableEq, Repr

/-- The capability flags of v4l2_capability that InternalConnect tests:
    V4L2_CAP_VIDEO_CAPTURE, V4L2_CAP_READWRITE, V4L2_CAP_STREAMING. -/
structure Capabilities where
  videoCapture : Bool
  readwrite : Bool
  streaming : Bool
deriving DecidableEq, Repr

/-- A v4l2_buffer descriptor as seen by the dequeue and requeue calls:
    buffer index, user-space address and byte length. -/
structure BufDesc where
  index : Nat
  userptr : Nat
  length : Nat
deriving DecidableEq, Repr

/-- One FrameBuffer entry of the class: a start pointer (none models a
    null or failed mapping) and a byte length. -/
structure FrameBuffer where
  start : Option Nat
  length : Nat
deriving DecidableEq, Repr

/-- Numeric value of a possibly-null pointer, as the C cast to
    unsigned long produces (null becomes 0). -/
def ptrVal : Option Nat → Nat
  | none => 0
  | some a => a

/-- Externally visible resource and queue events of the session. -/
inductive Event
  | openDev (fd : Nat)
  | allocFrames (count : Nat)
  | heapAlloc (addr : Nat) (size : Nat)
  | mapRegion (addr : Nat) (len : Nat)
  | mapFail (idx : Nat)
  | heapFree (addr : Option Nat)
  | unmapRegion (addr : Option Nat) (len : Nat)
  | freeFrames
  | closeDev
  | streamOn
  | streamOff
  | dequeue (d : BufDesc)
  | requeue (d : BufDesc)
  | deliverFrame (width : Nat) (height : Nat) (encoding : Nat) (frame : Nat)
deriving DecidableEq, Repr

/-- The member variables of vtkPlusV4L2VideoSource that the embedded
    operations read or write.  FrameNumber lives in the vtkPlusDevice base
    class; ForceFormat is the member declared in the header. -/
structure SessionState where
  fileDescriptor : Int
  requestedFormat : PixFormat
  frames : List FrameBuffer
  bufferCount : Nat
  frameNumber : Nat
  forceFormat : Bool
  ioMethod : IOMethod
deriving DecidableEq, Repr

/-- A freshly constructed session: fd -1, zeroed format, no frames,
    BufferCount 0, ForceFormat false (header default), given io method. -/
def initialState (m : IOMethod) : SessionState :=
  { fileDescriptor := -1
    requestedFormat := ⟨0, 0, 0, 0, 0⟩
    frames := []
    bufferCount := 0
    frameNumber := 0
    forceFormat := false
    ioMethod := m }

/-- Outcome of InternalConnect, one constructor per return site: connected
    for PLUS_SUCCESS, and one tag per LOG_ERROR-and-fail branch. -/
inductive ConnectOutcome
  | deviceNotFound
  | notCharDevice
  | openFailed
  | notV4L2
  | notCaptureDevice
  | unsupportedTransport
  | getFormatFailed
  | setFormatFailed
  | reqbufsFailed
  | insufficientBuffers
  | bufferAllocFailed
  | queryBufFailed
  | frameAllocFailed
  | connected
deriving DecidableEq, Repr

/-- PlusStatus value each InternalConnect outcome maps to. -/
def ConnectOutcome.toStatus : ConnectOutcome → PlusStatus
  | ConnectOutcome.connected => PlusStatus.success
  | _ => PlusStatus.fail

/-- Kernel and allocator responses consumed by InternalConnect and the
    three buffer-init helpers.  Each field is the post-xioctl outcome of
    one call site: stat, S_ISCHR, open, VIDIOC_QUERYCAP, VIDIOC_CROPCAP,
    VIDIOC_S_CROP, VIDIOC_G_FMT, VIDIOC_S_FMT (the kernel may adjust the
    submitted format, so it maps the request to the stored result),
    VIDIOC_REQBUFS (granted or reported buffer count), the calloc of the
    FrameBuffer container, VIDIOC_QUERYBUF per index (kernel length and
    offset), mmap per index and length, and malloc per allocation. -/
structure ConnectEnv where
  statOk : Bool
  isChr : Bool
  openFd : Option Nat
  querycap : Option Capabilities
  cropcapOk : Bool
  scropOk : Bool
  gfmt : Option PixFormat
  sfmt : PixFormat → Option PixFormat
  reqbufs : Option Nat
  framesAllocOk : Bool
  querybuf : Nat → Option (Nat × Nat)
  mmapAddr : Nat → Nat → Option Nat
  mallocAddr : Nat → Option Nat

/-- InitRead: calloc a one-entry FrameBuffer container, set entry 0 to the
    negotiated byte size and malloc it.  Container calloc failure and
    malloc failure each log and fail. -/
def initRead (st : SessionState) (env : ConnectEnv) (bufferSize : Nat) :
    ConnectOutcome × SessionState × List Event :=
  if env.framesAllocOk then
    match env.mallocAddr 0 with
    | none =>
      (ConnectOutcome.frameAllocFailed,
       { st with frames := [⟨none, bufferSize⟩] },
       [Event.allocFrames 1])
    | some a =>
      (ConnectOutcome.connected,
       { st with frames := [⟨some a, bufferSize⟩] },
       [Event.allocFrames 1, Event.heapAlloc a bufferSize])
  else
    (ConnectOutcome.bufferAllocFailed, st, [])

/-- The per-buffer loop of InitMmap: for BufferCount running from i while
    remaining r is positive, VIDIOC_QUERYBUF the index (failure logs and
    aborts the whole init), then mmap the kernel length; a MAP_FAILED
    result is logged and the stored start stays invalid, but the loop
    continues.  Returns the outcome, the final BufferCount, the container
    contents (entries not yet reached stay zeroed, as calloc left them)
    and the trace. -/
def initMmapLoop (env : ConnectEnv) (i r : Nat) (acc : List FrameBuffer)
    (tr : List Event) : ConnectOutcome × Nat × List FrameBuffer × List Event :=
  match r with
  | 0 => (ConnectOutcome.connected, i, acc, tr)
  | r' + 1 =>
    match env.querybuf i with
    | none =>
      (ConnectOutcome.queryBufFailed, i,
       acc ++ List.replicate (r' + 1) ⟨none, 0⟩, tr)
    | some (len, _off) =>
      match env.mmapAddr i len with
      | none =>
        initMmapLoop env (i + 1) r' (acc ++ [⟨none, len⟩]) (tr ++ [Event.mapFail i])
      | some a =>
        initMmapLoop env (i + 1) r' (acc ++ [⟨some a, len⟩])
          (tr ++ [Event.mapRegion a len])

/-- InitMmap: VIDIOC_REQBUFS for 4 memory-mapped buffers (failure logs and
    fails), require the granted count to be at least 2, calloc a container
    of that many entries, then run the query-and-map loop. -/
def initMmap (st : SessionState) (env : ConnectEnv) :
    ConnectOutcome × SessionState × List Event :=
  match env.reqbufs with
  | none => (ConnectOutcome.reqbufsFailed, st, [])
  | some count =>
    if count < 2 then (ConnectOutcome.insufficientBuffers, st, [])
    else if env.framesAllocOk then
      match initMmapLoop env 0 count [] [Event.allocFrames count] with
      | (out, bc, frames, tr) =>
        (out, { st with frames := frames, bufferCount := bc }, tr)
    else (ConnectOutcome.bufferAllocFailed, st, [])

/-- The per-buffer loop of InitUserp: for BufferCount running from i while
    remaining r is positive, set the entry length to the negotiated byte
    size and malloc it; a malloc failure logs and aborts. -/
def initUserpLoop (env : ConnectEnv) (bufferSize : Nat) (i r : Nat)
    (acc : List FrameBuffer) (tr : List Event) :
    ConnectOutcome × Nat × List FrameBuffer × List Event :=
  match r with
  | 0 => (ConnectOutcome.connected, i, acc, tr)
  | r' + 1 =>
    match env.mallocAddr i with
    | none =>
      (ConnectOutcome.frameAllocFailed, i,
       acc ++ (⟨none, bufferSize⟩ :: List.replicate r' ⟨none, 0⟩), tr)
    | some a =>
      initUserpLoop env bufferSize (i + 1) r' (acc ++ [⟨some a, bufferSize⟩])
        (tr ++ [Event.heapAlloc a bufferSize])

/-- InitUserp: VIDIOC_REQBUFS for 4 user-pointer buffers (failure logs and
    fails; the reported count is otherwise ignored), calloc a container of
    4 entries, then malloc exactly 4 buffers of the negotiated size. -/
def initUserp (st : SessionState) (env : ConnectEnv) (bufferSize : Nat) :
    ConnectOutcome × SessionState × List Event :=
  match env.reqbufs with
  | none => (ConnectOutcome.reqbufsFailed, st, [])
  | some _count =>
    if env.framesAllocOk then
      match initUserpLoop env bufferSize 0 4 [] [Event.allocFrames 4] with
      | (out, bc, frames, tr) =>
        (out, { st with frames := frames, bufferCount := bc }, tr)
    else (ConnectOutcome.bufferAllocFailed, st, [])

/-- InternalConnect: stat the device path and require a character device;
    open it read/write non-blocking and store the descriptor; query the
    capabilities and require the video-capture flag; require read/write
    capability for IO_METHOD_READ and streaming capability for
    IO_METHOD_MMAP and IO_METHOD_USERPTR; best-effort crop setup with all
    failures swallowed; VIDIOC_G_FMT into RequestedFormat; then
    unconditionally overwrite width, height, pixelformat and field with
    640, 480, YUYV and interlaced (the source marks this with a TODO and
    never consults the ForceFormat member) and submit it with VIDIOC_S_FMT,
    storing whatever the kernel hands back; finally dispatch to the
    buffer-init helper of the io method with the negotiated image size. -/
def internalConnect (st : SessionState) (env : ConnectEnv) :
    ConnectOutcome × SessionState × List Event :=
  if env.statOk then
    if env.isChr then
      match env.openFd with
      | none => (ConnectOutcome.openFailed, st, [])
      | some fd =>
        let st1 : SessionState := { st with fileDescriptor := (fd : Int) }
        match env.querycap with
        | none => (ConnectOutcome.notV4L2, st1, [Event.openDev fd])
        | some cap =>
          if cap.videoCapture then
            let capOk : Bool :=
              match st1.ioMethod with
              | IOMethod.ioRead => cap.readwrite
              | IOMethod.ioMmap => cap.streaming
              | IOMethod.ioUserptr => cap.streaming
            if capOk then
              match env.gfmt with
              | none => (ConnectOutcome.getFormatFailed, st1, [Event.openDev fd])
              | some g =>
                let req : PixFormat :=
                  { g with
                    width := 640
                    height := 480
                    pixelformat := V4L2_PIX_FMT_YUYV
                    pixfield := V4L2_FIELD_INTERLACED }
                match env.sfmt req with
                | none =>
                  (ConnectOutcome.setFormatFailed,
                   { st1 with requestedFormat := req }, [Event.openDev fd])
                | some adj =>
                  let st2 : SessionState := { st1 with requestedFormat := adj }
                  match st2.ioMethod with
                  | IOMethod.ioRead =>
                    match initRead st2 env adj.sizeimage with
                    | (o, st3, tr) => (o, st3, Event.openDev fd :: tr)
                  | IOMethod.ioMmap =>
                    match initMmap st2 env with
                    | (o, st3, tr) => (o, st3, Event.openDev fd :: tr)
                  | IOMethod.ioUserptr =>
                    match initUserp st2 env adj.sizeimage with
                    | (o, st3, tr) => (o, st3, Event.openDev fd :: tr)
            else (ConnectOutcome.unsupportedTransport, st1, [Event.openDev fd])
          else (ConnectOutcome.notCaptureDevice, st1, [Event.openDev fd])
    else (ConnectOutcome.notCharDevice, st, [])
  else (ConnectOutcome.deviceNotFound, st, [])

/-- Responses consumed by InternalDisconnect: munmap outcome per region
    and the close outcome. -/
structure DisconnectEnv where
  munmapOk : Option Nat → Nat → Bool
  closeOk : Bool

/-- The munmap loop of InternalDisconnect over the first BufferCount
    FrameBuffer entries: a munmap failure logs and aborts the whole
    disconnect with PLUS_FAIL. -/
def disconnectMmapLoop (env : DisconnectEnv) (frames : List FrameBuffer)
    (tr : List Event) : Bool × List Event :=
  match frames with
  | [] => (true, tr)
  | fb :: rest =>
    if env.munmapOk fb.start fb.length then
      disconnectMmapLoop env rest (tr ++ [Event.unmapRegion fb.start fb.length])
    else (false, tr)

/-- InternalDisconnect: per io method free the single read buffer, munmap
    every one of the BufferCount mapped regions (failure aborts with
    PLUS_FAIL), or free every one of the BufferCount user buffers; then
    free the container; then close the descriptor (failure is PLUS_FAIL)
    and set FileDescriptor to -1.  BufferCount is never touched. -/
def internalDisconnect (st : SessionState) (env : DisconnectEnv) :
    PlusStatus × SessionState × List Event :=
  let rel : Bool × List Event :=
    match st.ioMethod with
    | IOMethod.ioRead =>
      (true, [Event.heapFree (st.frames.getD 0 ⟨none, 0⟩).start])
    | IOMethod.ioMmap =>
      disconnectMmapLoop env (st.frames.take st.bufferCount) []
    | IOMethod.ioUserptr =>
      (true, (st.frames.take st.bufferCount).map (fun fb => Event.heapFree fb.start))
  match rel with
  | (false, tr) => (PlusStatus.fail, st, tr)
  | (true, tr) =>
    if env.closeOk then
      (PlusStatus.success, { st with fileDescriptor := -1 },
       tr ++ [Event.freeFrames, Event.closeDev])
    else (PlusStatus.fail, st, tr ++ [Event.freeFrames])

/-- Errno classification used by the read and dequeue branches of
    ReadFrame: EAGAIN, EIO, or any other errno. -/
inductive IoErr
  | eagain
  | eio
  | other
deriving DecidableEq, Repr

/-- Outcome of the select call at the top of InternalUpdate. -/
inductive SelectRes
  | selErr
  | selTimeout
  | selReady
deriving DecidableEq, Repr

/-- Responses consumed by one InternalUpdate cycle: the select outcome,
    the read outcome (read method; none is a successful read), the
    dequeue outcome (streaming methods; the kernel fills the descriptor),
    and the requeue outcome. -/
structure UpdateEnv where
  selectResult : SelectRes
  readResult : Option IoErr
  dqbuf : Except IoErr BufDesc
  qbufOk : Bool
deriving Repr

/-- Instrumented result of ReadFrame: PLUS_FAIL with errno EAGAIN, any
    other PLUS_FAIL, or PLUS_SUCCESS. -/
inductive ReadOutcome
  | eagain
  | fatal
  | ok
deriving DecidableEq, Repr

/-- ReadFrame: read method does one blocking read into frame 0 (EAGAIN
    fails the cycle; EIO falls through to the default error branch, which
    logs and fails).  The streaming methods dequeue one completed
    descriptor (EAGAIN fails the cycle; EIO falls through to the logging
    default branch) and immediately requeue the same descriptor (failure
    logs and fails).  The user-pointer method additionally scans the
    FrameBuffer entries for the one matching the dequeued address and
    length, but the match result is discarded. -/
def readFrame (st : SessionState) (env : UpdateEnv) : ReadOutcome × List Event :=
  match st.ioMethod with
  | IOMethod.ioRead =>
    match env.readResult with
    | none => (ReadOutcome.ok, [])
    | some IoErr.eagain => (ReadOutcome.eagain, [])
    | some IoErr.eio => (ReadOutcome.fatal, [])
    | some IoErr.other => (ReadOutcome.fatal, [])
  | IOMethod.ioMmap =>
    match env.dqbuf with
    | Except.error IoErr.eagain => (ReadOutcome.eagain, [])
    | Except.error IoErr.eio => (ReadOutcome.fatal, [])
    | Except.error IoErr.other => (ReadOutcome.fatal, [])
    | Except.ok d =>
      if env.qbufOk then (ReadOutcome.ok, [Event.dequeue d, Event.requeue d])
      else (ReadOutcome.fatal, [Event.dequeue d])
  | IOMethod.ioUserptr =>
    match env.dqbuf with
    | Except.error IoErr.eagain => (ReadOutcome.eagain, [])
    | Except.error IoErr.eio => (ReadOutcome.fatal, [])
    | Except.error IoErr.other => (ReadOutcome.fatal, [])
    | Except.ok d =>
      let _matchIdx :=
        st.frames.findIdx? (fun fb => ptrVal fb.start == d.userptr && fb.length == d.length)
      if env.qbufOk then (ReadOutcome.ok, [Event.dequeue d, Event.requeue d])
      else (ReadOutcome.fatal, [Event.dequeue d])

/-- Instrumented result of one InternalUpdate cycle, one constructor per
    return path: select error, select timeout, ReadFrame EAGAIN, any
    other ReadFrame failure, or PLUS_SUCCESS. -/
inductive CycleResult
  | pollError
  | pollTimeout
  | acquireRecoverable
  | acquireFatal
  | cycleSuccess
deriving DecidableEq, Repr

/-- PlusStatus value each cycle result maps to. -/
def CycleResult.toStatus : CycleResult → PlusStatus
  | CycleResult.cycleSuccess => PlusStatus.success
  | _ => PlusStatus.fail

/-- InternalUpdate: select on the descriptor with a 2 second timeout (an
    error or a timeout logs and fails the cycle); otherwise run ReadFrame,
    failing the cycle if it fails; on success increment FrameNumber once
    and return PLUS_SUCCESS.  Nothing else in the session is touched and
    no frame is pushed anywhere. -/
def internalUpdate (st : SessionState) (env : UpdateEnv) :
    CycleResult × SessionState × List Event :=
  match env.selectResult with
  | SelectRes.selErr => (CycleResult.pollError, st, [])
  | SelectRes.selTimeout => (CycleResult.pollTimeout, st, [])
  | SelectRes.selReady =>
    match readFrame st env with
    | (ReadOutcome.eagain, tr) => (CycleResult.acquireRecoverable, st, tr)
    | (ReadOutcome.fatal, tr) => (CycleResult.acquireFatal, st, tr)
    | (ReadOutcome.ok, tr) =>
      (CycleResult.cycleSuccess, { st with frameNumber := st.frameNumber + 1 }, tr)

/-- Responses consumed by InternalStartRecording: the requeue outcome per
    buffer index and the stream-on outcome. -/
structure StartEnv where
  qbufOkAt : Nat → Bool
  streamOnOk : Bool

/-- The queue-all loop of InternalStartRecording over indices i while
    remaining r is positive; a queue failure logs and fails. -/
def startQueueLoop (st : SessionState) (env : StartEnv) (mem : IOMethod)
    (i r : Nat) (tr : List Event) : Bool × List Event :=
  match r with
  | 0 => (true, tr)
  | r' + 1 =>
    if env.qbufOkAt i then
      let d : BufDesc :=
        match mem with
        | IOMethod.ioUserptr =>
          ⟨i, ptrVal (st.frames.getD i ⟨none, 0⟩).start, (st.frames.getD i ⟨none, 0⟩).length⟩
        | _ => ⟨i, 0, 0⟩
      startQueueLoop st env mem (i + 1) r' (tr ++ [Event.requeue d])
    else (false, tr)

/-- InternalStartRecording: nothing to do for the read method; for the
    streaming methods queue every one of the BufferCount buffers (for the
    user-pointer method passing each buffer address and length), then
    issue stream-on; any queue failure or a stream-on failure fails. -/
def internalStartRecording (st : SessionState) (env : StartEnv) :
    PlusStatus × List Event :=
  match st.ioMethod with
  | IOMethod.ioRead => (PlusStatus.success, [])
  | m =>
    match startQueueLoop st env m 0 st.bufferCount [] with
    | (false, tr) => (PlusStatus.fail, tr)
    | (true, tr) =>
      if env.streamOnOk then (PlusStatus.success, tr ++ [Event.streamOn])
      else (PlusStatus.fail, tr)

/-- InternalStopRecording: nothing to do for the read method; for the
    streaming methods issue stream-off, logging a failure but returning
    PLUS_SUCCESS either way. -/
def internalStopRecording (st : SessionState) (_streamOffOk : Bool) :
    PlusStatus × List Event :=
  match st.ioMethod with
  | IOMethod.ioRead => (PlusStatus.success, [])
  | _ => (PlusStatus.success, [Event.streamOff])

/-- Run InternalUpdate once per environment in the list, threading the
    session state and concatenating the traces. -/
def runCycles (st : SessionState) : List UpdateEnv → SessionState × List Event
  | [] => (st, [])
  | e :: es =>
    match internalUpdate st e with
    | (_, st', tr) =>
      match runCycles st' es with
      | (stf, trs) => (stf, tr ++ trs)

/-- Whether an event hands a frame to the external sink. -/
def isDeliver : Event → Bool
  | Event.deliverFrame _ _ _ _ => true
  | _ => false

/-- Whether an event is a requeue of a buffer descriptor. -/
def isRequeueEv : Event → Bool
  | Event.requeue _ => true
  | _ => false

/-- Whether an event is a dequeue of a buffer descriptor. -/
def isDequeueEv : Event → Bool
  | Event.dequeue _ => true
  | _ => false

/-- Whether an event releases a resource or tears the session down: a
    heap free, an unmap, the container free, or the descriptor close. -/
def isTeardown : Event → Bool
  | Event.heapFree _ => true
  | Event.unmapRegion _ _ => true
  | Event.freeFrames => true
  | Event.closeDev => true
  | _ => false

/-- Scan used by noDoubleRequeue; the flag records whether the last queue
    event seen was a requeue. -/
def noDoubleRequeueAux : Bool → List Event → Bool
  | _, [] => true
  | lastWasRq, ev :: rest =>
    match ev with
    | Event.requeue _ => if lastWasRq then false else noDoubleRequeueAux true rest
    | Event.dequeue _ => noDoubleRequeueAux false rest
    | _ => noDoubleRequeueAux lastWasRq rest

/-- True when no requeue event occurs twice in a row without an
    intervening dequeue event. -/
def noDoubleRequeue (tr : List Event) : Bool :=
  noDoubleRequeueAux false tr

/-- xioctl returns the first listed raw outcome that is not an EINTR
    failure. -/
theorem xioctl_eq_find (rs : List SysResult) :
    xioctl rs = rs.find? (fun r => !isEintr r) := by
  induction rs with
  | nil => rfl
  | cons r rest ih =>
    cases r with
    | ok => simp [xioctl, List.find?, isEintr]
    | err e =>
      by_cases h : (e == EINTR) = true
      · simp [xioctl, List.find?, isEintr, h, ih]
      · simp [xioctl, List.find?, isEintr, h]

/-- Claim C10: every kernel device-control request goes through xioctl,
    which retries the raw ioctl while it fails with EINTR, so the value an
    operation observes is always the first non-EINTR outcome of the raw
    call sequence and an EINTR failure is never surfaced. -/
theorem claim10_xioctl_eintr_retry :
    (∀ rs : List SysResult, xioctl rs = rs.find? (fun r => !isEintr r)) ∧
    (∀ (rs : List SysResult) (r : SysResult),
       xioctl rs = some r → isEintr r = false) := by
  refine ⟨xioctl_eq_find, ?_⟩
  intro rs r h
  rw [xioctl_eq_find] at h
  have hp := List.find?_some h
  simpa using hp

/-- Witness for claim C10 at a concrete raw outcome sequence: one EINTR
    failure followed by a success. -/
theorem claim10_witness :
    xioctl [SysResult.err 4, SysResult.ok] =
      ([SysResult.err 4, SysResult.ok]).find? (fun r => !isEintr r) ∧
    isEintr SysResult.ok = false :=
  ⟨claim10_xioctl_eintr_retry.1 [SysResult.err 4, SysResult.ok],
   claim10_xioctl_eintr_retry.2 [SysResult.err 4, SysResult.ok] SysResult.ok (by decide)⟩

/-- Claim C5: one update cycle increments FrameNumber by exactly 1 when it
    returns success and leaves it unchanged on every failing cycle,
    including the select-timeout and recoverable EAGAIN paths, so the
    counter never decreases. -/
theorem claim5_frameNumber_increment (st : SessionState) (env : UpdateEnv) :
    (internalUpdate st env).2.1.frameNumber =
      (if (internalUpdate st env).1 = CycleResult.cycleSuccess
       then st.frameNumber + 1 else st.frameNumber) ∧
    st.frameNumber ≤ (internalUpdate st env).2.1.frameNumber := by
  cases hsel : env.selectResult
  · simp [internalUpdate, hsel]
  · simp [internalUpdate, hsel]
  · rcases hrf : readFrame st env with ⟨ro, tr⟩
    cases ro <;> simp [internalUpdate, hsel, hrf]

/-- The trace of one ReadFrame call contains no frame-delivery event. -/
theorem readFrame_no_deliver (st : SessionState) (env : UpdateEnv) :
    ((readFrame st env).2).countP isDeliver = 0 := by
  cases hm : st.ioMethod
  · cases hr : env.readResult
    · simp [readFrame, hm, hr]
    · rename_i e; cases e <;> simp [readFrame, hm, hr]
  · cases hd : env.dqbuf
    · rename_i e; cases e <;> simp [readFrame, hm, hd]
    · cases hq : env.qbufOk <;> simp [readFrame, hm, hd, hq, isDeliver]
  · cases hd : env.dqbuf
    · rename_i e; cases e <;> simp [readFrame, hm, hd]
    · cases hq : env.qbufOk <;> simp [readFrame, hm, hd, hq, isDeliver]

/-- The trace of one update cycle contains no frame-delivery event. -/
theorem internalUpdate_no_deliver (st : SessionState) (env : UpdateEnv) :
    ((internalUpdate st env).2.2).countP isDeliver = 0 := by
  cases hsel : env.selectResult
  · simp [internalUpdate, hsel]
  · simp [internalUpdate, hsel]
  · have h := readFrame_no_deliver st env
    rcases hrf : readFrame st env with ⟨ro, tr⟩
    rw [hrf] at h
    cases ro <;> simpa [internalUpdate, hsel, hrf] using h

/-- Update environment for a read-method cycle where select reports the
    descriptor ready and the read succeeds. -/
def demoReadEnv : UpdateEnv :=
  { selectResult := SelectRes.selReady
    readResult := none
    dqbuf := Except.error IoErr.other
    qbufOk := true }

/-- Claim C2 is false on the code (code bug): InternalUpdate never hands
    any frame to an external sink.  The acquisition succeeds and
    FrameNumber is incremented, but the trace of every cycle, including a
    successful one, contains zero frame-delivery events, not exactly one:
    no channel or data-source receives the buffer. -/
theorem claim2_no_frame_delivery_bug :
    (∀ (st : SessionState) (env : UpdateEnv),
       ((internalUpdate st env).2.2).countP isDeliver = 0) ∧
    (internalUpdate (initialState IOMethod.ioRead) demoReadEnv).1 =
      CycleResult.cycleSuccess ∧
    ((internalUpdate (initialState IOMethod.ioRead) demoReadEnv).2.2).countP isDeliver
      ≠ 1 := by
  refine ⟨internalUpdate_no_deliver, by decide, by decide⟩

/-- The format a demo device reports from VIDIOC_G_FMT: 320 by 240 grey,
    progressive, 76800 bytes per frame. -/
def queriedFormat : PixFormat :=
  ⟨320, 240, V4L2_PIX_FMT_GREY, V4L2_FIELD_NONE, 76800⟩

/-- A demo device for connect: everything succeeds, VIDIOC_G_FMT reports
    queriedFormat, and VIDIOC_S_FMT stores each request unchanged. -/
def formatDemoEnv : ConnectEnv :=
  { statOk := true
    isChr := true
    openFd := some 3
    querycap := some ⟨true, true, true⟩
    cropcapOk := true
    scropOk := true
    gfmt := some queriedFormat
    sfmt := fun f => some f
    reqbufs := some 4
    framesAllocOk := true
    querybuf := fun _ => some (614400, 0)
    mmapAddr := fun _ _ => some 4096
    mallocAddr := fun _ => some 8192 }

/-- Claim C1 is false on the code (code bug): with ForceFormat unset (its
    only possible value, since nothing ever writes or reads the member),
    InternalConnect does not store the queried format unchanged.  It
    queries VIDIOC_G_FMT and then unconditionally overwrites width,
    height, encoding and field order with 640, 480, YUYV and interlaced
    before VIDIOC_S_FMT, so a device reporting 320 by 240 grey ends up
    negotiated as 640 by 480 YUYV; the result is also identical whether
    ForceFormat is false or true. -/
theorem claim1_format_override_bug :
    (initialState IOMethod.ioRead).forceFormat = false ∧
    (internalConnect (initialState IOMethod.ioRead) formatDemoEnv).1 =
      ConnectOutcome.connected ∧
    (internalConnect (initialState IOMethod.ioRead) formatDemoEnv).2.1.requestedFormat =
      ⟨640, 480, V4L2_PIX_FMT_YUYV, V4L2_FIELD_INTERLACED, 76800⟩ ∧
    (internalConnect (initialState IOMethod.ioRead) formatDemoEnv).2.1.requestedFormat ≠
      queriedFormat ∧
    (internalConnect { initialState IOMethod.ioRead with forceFormat := true }
        formatDemoEnv).2.1.requestedFormat =
      (internalConnect (initialState IOMethod.ioRead) formatDemoEnv).2.1.requestedFormat := by
  refine ⟨rfl, by decide, by decide, by decide, by decide⟩

/-- A demo device whose capability set has video capture and read/write
    but lacks streaming. -/
def noStreamEnv : ConnectEnv :=
  { formatDemoEnv with openFd := some 5, querycap := some ⟨true, true, false⟩ }

/-- Claim C4 as stated is false at a concrete input: a kernel-mapped
    connect against a device lacking the streaming capability fails at the
    transport check, but the freshly opened descriptor 5 is left stored
    and open; no close happens and FileDescriptor is not the invalid
    value. -/
theorem claim4_handle_left_open_cex :
    (internalConnect (initialState IOMethod.ioMmap) noStreamEnv).1 =
      ConnectOutcome.unsupportedTransport ∧
    (internalConnect (initialState IOMethod.ioMmap) noStreamEnv).2.1.fileDescriptor = 5 ∧
    (internalConnect (initialState IOMethod.ioMmap) noStreamEnv).2.1.fileDescriptor ≠ -1 ∧
    Event.closeDev ∉ (internalConnect (initialState IOMethod.ioMmap) noStreamEnv).2.2 := by
  refine ⟨by decide, by decide, by decide, by decide⟩

/-- Claim C4 amended: whenever the capability set lacks the flag the
    requested transport mode needs (read/write for DirectRead, streaming
    for KernelMapped or UserPointer), Connect fails at the transport
    check, but the device handle is left valid and open: FileDescriptor
    holds the just-opened descriptor and no close is issued. -/
theorem claim4_unsupported_transport_amended
    (st : SessionState) (env : ConnectEnv) (fd : Nat) (cap : Capabilities)
    (h1 : env.statOk = true) (h2 : env.isChr = true) (h3 : env.openFd = some fd)
    (h4 : env.querycap = some cap) (h5 : cap.videoCapture = true)
    (h6 : (st.ioMethod = IOMethod.ioRead ∧ cap.readwrite = false) ∨
          ((st.ioMethod = IOMethod.ioMmap ∨ st.ioMethod = IOMethod.ioUserptr) ∧
           cap.streaming = false)) :
    internalConnect st env =
      (ConnectOutcome.unsupportedTransport,
       { st with fileDescriptor := (fd : Int) }, [Event.openDev fd]) ∧
    ConnectOutcome.toStatus ConnectOutcome.unsupportedTransport = PlusStatus.fail ∧
    Event.closeDev ∉ [Event.openDev fd] := by
  refine ⟨?_, rfl, by simp⟩
  rcases h6 with ⟨hm, hc⟩ | ⟨hm | hm, hc⟩ <;>
    simp [internalConnect, h1, h2, h3, h4, h5, hm, hc]

/-- Witness for claim C4 at the concrete no-streaming device. -/
theorem claim4_witness :
    internalConnect (initialState IOMethod.ioMmap) noStreamEnv =
      (ConnectOutcome.unsupportedTransport,
       { initialState IOMethod.ioMmap with fileDescriptor := (5 : Int) },
       [Event.openDev 5]) ∧
    ConnectOutcome.toStatus ConnectOutcome.unsupportedTransport = PlusStatus.fail ∧
    Event.closeDev ∉ [Event.openDev 5] :=
  claim4_unsupported_transport_amended (initialState IOMethod.ioMmap) noStreamEnv 5
    ⟨true, true, false⟩ rfl rfl rfl rfl rfl (Or.inr ⟨Or.inl rfl, rfl⟩)

/-- Whether the dequeue call failed with EAGAIN. -/
def dqbufIsEagain : Except IoErr BufDesc → Bool
  | Except.error IoErr.eagain => true
  | _ => false

/-- Whether the acquisition step of the active io method reports EAGAIN:
    the read call for the read method, the dequeue call for the streaming
    methods. -/
def acquireSaysEagain (st : SessionState) (env : UpdateEnv) : Bool :=
  match st.ioMethod with
  | IOMethod.ioRead => env.readResult == some IoErr.eagain
  | _ => dqbufIsEagain env.dqbuf

/-- A dequeue outcome flagged as EAGAIN is the EAGAIN error. -/
theorem dqbufIsEagain_eq {d : Except IoErr BufDesc}
    (h : dqbufIsEagain d = true) : d = Except.error IoErr.eagain := by
  cases d with
  | error e => cases e <;> simp_all [dqbufIsEagain]
  | ok _ => simp [dqbufIsEagain] at h

/-- When the acquisition step reports EAGAIN, ReadFrame fails the cycle
    with the EAGAIN outcome and performs no queue operation. -/
theorem readFrame_eagain (st : SessionState) (env : UpdateEnv)
    (h : acquireSaysEagain st env = true) :
    readFrame st env = (ReadOutcome.eagain, []) := by
  cases hm : st.ioMethod
  · rw [acquireSaysEagain, hm] at h
    have hr : env.readResult = some IoErr.eagain := by simpa using h
    simp [readFrame, hm, hr]
  · rw [acquireSaysEagain, hm] at h
    have hd := dqbufIsEagain_eq h
    simp [readFrame, hm, hd]
  · rw [acquireSaysEagain, hm] at h
    have hd := dqbufIsEagain_eq h
    simp [readFrame, hm, hd]

/-- A cycle that does not return success leaves the whole session state
    unchanged. -/
theorem internalUpdate_nonsuccess_state (st : SessionState) (env : UpdateEnv)
    (h : (internalUpdate st env).1 ≠ CycleResult.cycleSuccess) :
    (internalUpdate st env).2.1 = st := by
  cases hsel : env.selectResult
  · simp [internalUpdate, hsel]
  · simp [internalUpdate, hsel]
  · rcases hrf : readFrame st env with ⟨ro, tr⟩
    cases ro
    · simp [internalUpdate, hsel, hrf]
    · simp [internalUpdate, hsel, hrf]
    · exact absurd (by simp [internalUpdate, hsel, hrf]) h

/-- The trace of one ReadFrame call contains no release or teardown
    event. -/
theorem readFrame_no_teardown (st : SessionState) (env : UpdateEnv) :
    ((readFrame st env).2).countP isTeardown = 0 := by
  cases hm : st.ioMethod
  · cases hr : env.readResult
    · simp [readFrame, hm, hr]
    · rename_i e; cases e <;> simp [readFrame, hm, hr]
  · cases hd : env.dqbuf
    · rename_i e; cases e <;> simp [readFrame, hm, hd]
    · cases hq : env.qbufOk <;> simp [readFrame, hm, hd, hq, isTeardown]
  · cases hd : env.dqbuf
    · rename_i e; cases e <;> simp [readFrame, hm, hd]
    · cases hq : env.qbufOk <;> simp [readFrame, hm, hd, hq, isTeardown]

/-- The trace of one update cycle contains no release or teardown event,
    whatever the cycle outcome. -/
theorem internalUpdate_no_teardown (st : SessionState) (env : UpdateEnv) :
    ((internalUpdate st env).2.2).countP isTeardown = 0 := by
  cases hsel : env.selectResult
  · simp [internalUpdate, hsel]
  · simp [internalUpdate, hsel]
  · have h := readFrame_no_teardown st env
    rcases hrf : readFrame st env with ⟨ro, tr⟩
    rw [hrf] at h
    cases ro <;> simpa [internalUpdate, hsel, hrf] using h

/-- Claim C7: an EAGAIN acquisition failure makes the cycle fail with the
    recoverable outcome, produces no frame and no event at all, and
    leaves the session state (descriptor, buffers, FrameNumber) exactly
    unchanged; moreover no failing cycle mutates the state, and no cycle
    of any outcome releases a resource or closes the device. -/
theorem claim7_eagain_recoverable (st : SessionState) (env : UpdateEnv) :
    (env.selectResult = SelectRes.selReady → acquireSaysEagain st env = true →
       internalUpdate st env = (CycleResult.acquireRecoverable, st, [])) ∧
    ((internalUpdate st env).1 ≠ CycleResult.cycleSuccess →
       (internalUpdate st env).2.1 = st) ∧
    ((internalUpdate st env).2.2).countP isTeardown = 0 ∧
    ((internalUpdate st env).2.2).countP isDeliver = 0 := by
  refine ⟨?_, internalUpdate_nonsuccess_state st env,
    internalUpdate_no_teardown st env, internalUpdate_no_deliver st env⟩
  intro hsel heag
  simp [internalUpdate, hsel, readFrame_eagain st env heag]

/-- Update environment for a streaming-method cycle where the descriptor
    is ready but the dequeue reports EAGAIN. -/
def demoEagainEnv : UpdateEnv :=
  { selectResult := SelectRes.selReady
    readResult := some IoErr.eagain
    dqbuf := Except.error IoErr.eagain
    qbufOk := true }

/-- Witness for claim C7 at a concrete kernel-mapped session hitting
    EAGAIN. -/
theorem claim7_witness :
    internalUpdate (initialState IOMethod.ioMmap) demoEagainEnv =
      (CycleResult.acquireRecoverable, initialState IOMethod.ioMmap, []) ∧
    ((internalUpdate (initialState IOMethod.ioMmap) demoEagainEnv).2.2).countP
      isTeardown = 0 :=
  ⟨(claim7_eagain_recoverable (initialState IOMethod.ioMmap) demoEagainEnv).1
      rfl (by decide),
   (claim7_eagain_recoverable (initialState IOMethod.ioMmap) demoEagainEnv).2.2.1⟩

/-- The query-and-map loop succeeds exactly when every queried index in
    its range has a successful buffer query; mapping outcomes play no
    part. -/
theorem initMmapLoop_connected_iff (env : ConnectEnv) :
    ∀ (r i : Nat) (acc : List FrameBuffer) (tr : List Event),
      ((initMmapLoop env i r acc tr).1 = ConnectOutcome.connected ↔
        ∀ j, i ≤ j → j < i + r → env.querybuf j ≠ none) := by
  intro r
  induction r with
  | zero =>
    intro i acc tr
    refine iff_of_true (by simp [initMmapLoop]) ?_
    intro j h1 h2
    omega
  | succ r' ih =>
    intro i acc tr
    cases hq : env.querybuf i with
    | none =>
      refine iff_of_false (by simp [initMmapLoop, hq]) ?_
      intro h
      exact h i (Nat.le_refl i) (by omega) hq
    | some p =>
      rcases p with ⟨len, off⟩
      have step :
          ∀ (acc' : List FrameBuffer) (tr' : List Event),
            ((initMmapLoop env (i + 1) r' acc' tr').1 = ConnectOutcome.connected ↔
              ∀ j, i ≤ j → j < i + (r' + 1) → env.querybuf j ≠ none) := by
        intro acc' tr'
        rw [ih (i + 1) acc' tr']
        constructor
        · intro h j hj1 hj2
          rcases Nat.eq_or_lt_of_le hj1 with rfl | hlt
          · simp [hq]
          · exact h j hlt (by omega)
        · intro h j hj1 hj2
          exact h j (by omega) (by omega)
      cases hm : env.mmapAddr i len with
      | none => simpa [initMmapLoop, hq, hm] using step _ _
      | some a => simpa [initMmapLoop, hq, hm] using step _ _

/-- The trace argument of the query-and-map loop is a prefix of the trace
    it returns. -/
theorem initMmapLoop_trace_prefix (env : ConnectEnv) :
    ∀ (r i : Nat) (acc : List FrameBuffer) (tr : List Event),
      ∃ tr', (initMmapLoop env i r acc tr).2.2.2 = tr ++ tr' := by
  intro r
  induction r with
  | zero => intro i acc tr; exact ⟨[], by simp [initMmapLoop]⟩
  | succ r' ih =>
    intro i acc tr
    cases hq : env.querybuf i with
    | none => exact ⟨[], by simp [initMmapLoop, hq]⟩
    | some p =>
      rcases p with ⟨len, off⟩
      cases hm : env.mmapAddr i len with
      | none =>
        rcases ih (i + 1) (acc ++ [⟨none, len⟩]) (tr ++ [Event.mapFail i]) with ⟨tr', htr⟩
        exact ⟨Event.mapFail i :: tr', by simp [initMmapLoop, hq, hm, htr]⟩
      | some a =>
        rcases ih (i + 1) (acc ++ [⟨some a, len⟩]) (tr ++ [Event.mapRegion a len]) with ⟨tr', htr⟩
        exact ⟨Event.mapRegion a len :: tr', by simp [initMmapLoop, hq, hm, htr]⟩

/-- When every query in range succeeds, a mapping failure at index j puts
    the logged map-failure event for j into the loop trace. -/
theorem initMmapLoop_mapFail_mem (env : ConnectEnv) :
    ∀ (r i : Nat) (acc : List FrameBuffer) (tr : List Event) (j len off : Nat),
      i ≤ j → j < i + r → env.querybuf j = some (len, off) →
      env.mmapAddr j len = none →
      (∀ k, i ≤ k → k < i + r → env.querybuf k ≠ none) →
      Event.mapFail j ∈ (initMmapLoop env i r acc tr).2.2.2 := by
  intro r
  induction r with
  | zero => intro i acc tr j len off h1 h2 _ _ _; omega
  | succ r' ih =>
    intro i acc tr j len off h1 h2 hq hm hall
    rcases Nat.eq_or_lt_of_le h1 with heq | hlt
    · subst heq
      rcases initMmapLoop_trace_prefix env r' (i + 1) (acc ++ [⟨none, len⟩])
        (tr ++ [Event.mapFail i]) with ⟨tr', htr⟩
      simp only [initMmapLoop, hq, hm]
      rw [htr]
      simp
    · have hqi : env.querybuf i ≠ none := hall i (Nat.le_refl i) (by omega)
      cases hqc : env.querybuf i with
      | none => exact absurd hqc hqi
      | some p =>
        rcases p with ⟨li, oi⟩
        cases hmc : env.mmapAddr i li with
        | none =>
          have hrec := ih (i + 1) (acc ++ [⟨none, li⟩]) (tr ++ [Event.mapFail i])
            j len off (by omega) (by omega) hq hm
            (fun k hk1 hk2 => hall k (by omega) (by omega))
          simpa [initMmapLoop, hqc, hmc] using hrec
        | some a =>
          have hrec := ih (i + 1) (acc ++ [⟨some a, li⟩]) (tr ++ [Event.mapRegion a li])
            j len off (by omega) (by omega) hq hm
            (fun k hk1 hk2 => hall k (by omega) (by omega))
          simpa [initMmapLoop, hqc, hmc] using hrec

/-- Claim C6: kernel-mapped buffer initialization succeeds exactly when
    the request-buffers call succeeds with at least 2 granted buffers, the
    container allocation succeeds, and every per-index buffer query
    succeeds; the per-buffer mapping outcomes never influence the result,
    and on a successful initialization every failed mapping leaves its
    logged map-failure event in the trace. -/
theorem claim6_initMmap_failure_conditions (st : SessionState) (env : ConnectEnv) :
    ((initMmap st env).1 = ConnectOutcome.connected ↔
       ∃ count, env.reqbufs = some count ∧ 2 ≤ count ∧ env.framesAllocOk = true ∧
         ∀ i, i < count → env.querybuf i ≠ none) ∧
    (∀ count, env.reqbufs = some count →
       (initMmap st env).1 = ConnectOutcome.connected →
       ∀ i len off, i < count → env.querybuf i = some (len, off) →
         env.mmapAddr i len = none →
         Event.mapFail i ∈ (initMmap st env).2.2) := by
  cases hrb : env.reqbufs with
  | none =>
    constructor
    · refine iff_of_false (by simp [initMmap, hrb]) ?_
      rintro ⟨c, hceq, -⟩
      exact Option.noConfusion hceq
    · intro c hceq
      exact Option.noConfusion hceq
  | some count =>
    by_cases hc : count < 2
    · constructor
      · refine iff_of_false (by simp [initMmap, hrb, hc]) ?_
        rintro ⟨c, hceq, h2, -⟩
        injection hceq with hceq
        omega
      · intro c hceq hconn
        exact absurd hconn (by simp [initMmap, hrb, hc])
    · cases hfa : env.framesAllocOk with
      | false =>
        constructor
        · refine iff_of_false (by simp [initMmap, hrb, hc, hfa]) ?_
          rintro ⟨c, -, -, hfa', -⟩
          exact Bool.false_ne_true hfa'
        · intro c hceq hconn
          exact absurd hconn (by simp [initMmap, hrb, hc, hfa])
      | true =>
        rcases hres : initMmapLoop env 0 count [] [Event.allocFrames count]
          with ⟨out, bc, frames, tr⟩
        have hiff := initMmapLoop_connected_iff env count 0 []
          [Event.allocFrames count]
        rw [hres] at hiff
        have hinit : initMmap st env =
            (out, { st with frames := frames, bufferCount := bc }, tr) := by
          simp [initMmap, hrb, hc, hfa, hres]
        constructor
        · rw [hinit]
          dsimp only at hiff ⊢
          rw [hiff]
          constructor
          · intro h
            exact ⟨count, rfl, by omega, rfl,
              fun i hi => h i (Nat.zero_le i) (by omega)⟩
          · rintro ⟨c, hceq, -, -, hall⟩
            injection hceq with hceq
            subst hceq
            intro j hj1 hj2
            exact hall j (by omega)
        · intro c hceq hconn i len off hi hq hm
          injection hceq with hceq
          subst hceq
          rw [hinit] at hconn ⊢
          dsimp only at hconn hiff ⊢
          have hall : ∀ k, 0 ≤ k → k < 0 + count → env.querybuf k ≠ none :=
            hiff.mp hconn
          have hmem := initMmapLoop_mapFail_mem env count 0 []
            [Event.allocFrames count] i len off (Nat.zero_le i) (by omega) hq hm hall
          rw [hres] at hmem
          simpa using hmem

/-- A demo device for kernel-mapped init whose mapping of buffer index 1
    fails while everything else succeeds. -/
def mmapFailEnv : ConnectEnv :=
  { formatDemoEnv with mmapAddr := fun i _ => if i == 1 then none else some 4096 }

/-- Witness for claim C6: with the mapping of index 1 failing,
    initialization still succeeds and the logged map failure for index 1
    is in the trace. -/
theorem claim6_witness :
    Event.mapFail 1 ∈ (initMmap (initialState IOMethod.ioMmap) mmapFailEnv).2.2 :=
  (claim6_initMmap_failure_conditions (initialState IOMethod.ioMmap) mmapFailEnv).2
    4 rfl (by decide) 1 614400 0 (by decide) rfl rfl

/-- Whether an event is a heap allocation. -/
def isHeapAllocEv : Event → Bool
  | Event.heapAlloc _ _ => true
  | _ => false

/-- When every malloc in range succeeds, the user-pointer allocation loop
    succeeds and appends one buffer of the requested size, and one heap
    allocation event, per index in its range. -/
theorem initUserpLoop_clean (env : ConnectEnv) (bufferSize : Nat) (A : Nat → Nat) :
    ∀ (r i : Nat) (acc : List FrameBuffer) (tr : List Event),
      (∀ j, i ≤ j → j < i + r → env.mallocAddr j = some (A j)) →
      initUserpLoop env bufferSize i r acc tr =
        (ConnectOutcome.connected, i + r,
         acc ++ (List.range' i r).map (fun j => ⟨some (A j), bufferSize⟩),
         tr ++ (List.range' i r).map (fun j => Event.heapAlloc (A j) bufferSize)) := by
  intro r
  induction r with
  | zero => intro i acc tr _; simp [initUserpLoop]
  | succ r' ih =>
    intro i acc tr h
    have hi : env.mallocAddr i = some (A i) := h i (Nat.le_refl i) (by omega)
    have hrec := ih (i + 1) (acc ++ [⟨some (A i), bufferSize⟩])
      (tr ++ [Event.heapAlloc (A i) bufferSize])
      (fun j hj1 hj2 => h j (by omega) (by omega))
    simp only [initUserpLoop, hi]
    rw [hrec, List.range'_succ]
    simp
    omega

/-- Claim C9: a successful user-pointer buffer initialization allocates
    exactly 4 heap buffers, each of the negotiated frame byte size, and
    sets BufferCount to 4, regardless of the buffer count the kernel
    request-buffers call reports back. -/
theorem claim9_userp_allocates_four (st : SessionState) (env : ConnectEnv)
    (bufferSize reported : Nat) (A : Nat → Nat)
    (hrb : env.reqbufs = some reported)
    (hca : env.framesAllocOk = true)
    (hma : ∀ j, j < 4 → env.mallocAddr j = some (A j)) :
    (initUserp st env bufferSize).1 = ConnectOutcome.connected ∧
    (initUserp st env bufferSize).2.1.bufferCount = 4 ∧
    (initUserp st env bufferSize).2.1.frames =
      [⟨some (A 0), bufferSize⟩, ⟨some (A 1), bufferSize⟩,
       ⟨some (A 2), bufferSize⟩, ⟨some (A 3), bufferSize⟩] ∧
    (∀ fb ∈ (initUserp st env bufferSize).2.1.frames, fb.length = bufferSize) ∧
    ((initUserp st env bufferSize).2.2).countP isHeapAllocEv = 4 := by
  have hloop := initUserpLoop_clean env bufferSize A 4 0 [] [Event.allocFrames 4]
    (fun j hj1 hj2 => hma j (by omega))
  have hinit : initUserp st env bufferSize =
      (ConnectOutcome.connected,
       { st with
         frames := (List.range' 0 4).map (fun j => ⟨some (A j), bufferSize⟩)
         bufferCount := 4 },
       Event.allocFrames 4 ::
         (List.range' 0 4).map (fun j => Event.heapAlloc (A j) bufferSize)) := by
    simp [initUserp, hrb, hca, hloop]
  rw [hinit]
  refine ⟨rfl, rfl, ?_, ?_, ?_⟩
  · simp [List.range']
  · intro fb hfb
    simp [List.range'] at hfb
    rcases hfb with h | h | h | h <;> rw [h]
  · simp [List.range', isHeapAllocEv]

/-- A demo device for user-pointer init whose request-buffers call
    reports only 1 buffer back. -/
def userpDemoEnv : ConnectEnv := { formatDemoEnv with reqbufs := some 1 }

/-- Witness for claim C9: even with the kernel reporting a single buffer,
    4 heap buffers of the frame size are allocated and BufferCount is 4. -/
theorem claim9_witness :
    (initUserp (initialState IOMethod.ioUserptr) userpDemoEnv 614400).1 =
      ConnectOutcome.connected ∧
    (initUserp (initialState IOMethod.ioUserptr) userpDemoEnv 614400).2.1.bufferCount = 4 ∧
    (initUserp (initialState IOMethod.ioUserptr) userpDemoEnv 614400).2.1.frames =
      [⟨some 8192, 614400⟩, ⟨some 8192, 614400⟩,
       ⟨some 8192, 614400⟩, ⟨some 8192, 614400⟩] ∧
    (∀ fb ∈ (initUserp (initialState IOMethod.ioUserptr) userpDemoEnv 614400).2.1.frames,
       fb.length = 614400) ∧
    ((initUserp (initialState IOMethod.ioUserptr) userpDemoEnv 614400).2.2).countP
      isHeapAllocEv = 4 :=
  claim9_userp_allocates_four (initialState IOMethod.ioUserptr) userpDemoEnv
    614400 1 (fun _ => 8192) rfl rfl (fun _ _ => rfl)

/-- In a streaming method, a ready descriptor, a successful dequeue of
    descriptor d and a successful requeue make the cycle succeed with the
    trace dequeue d then requeue d and a FrameNumber increment. -/
theorem internalUpdate_ok_cycle (st : SessionState) (env : UpdateEnv) (d : BufDesc)
    (hm : st.ioMethod = IOMethod.ioMmap ∨ st.ioMethod = IOMethod.ioUserptr)
    (hsel : env.selectResult = SelectRes.selReady)
    (hd : env.dqbuf = Except.ok d) (hq : env.qbufOk = true) :
    internalUpdate st env =
      (CycleResult.cycleSuccess, { st with frameNumber := st.frameNumber + 1 },
       [Event.dequeue d, Event.requeue d]) := by
  rcases hm with hm | hm <;>
    simp [internalUpdate, readFrame, hsel, hm, hd, hq]

/-- Every successful cycle of a streaming method dequeued exactly one
    completed descriptor and requeued that same descriptor, nothing else. -/
theorem internalUpdate_success_shape (st : SessionState) (env : UpdateEnv)
    (hm : st.ioMethod = IOMethod.ioMmap ∨ st.ioMethod = IOMethod.ioUserptr)
    (hs : (internalUpdate st env).1 = CycleResult.cycleSuccess) :
    ∃ d, env.dqbuf = Except.ok d ∧ env.qbufOk = true ∧
      (internalUpdate st env).2.2 = [Event.dequeue d, Event.requeue d] := by
  cases hsel : env.selectResult
  · rw [internalUpdate, hsel] at hs; exact absurd hs (by simp)
  · rw [internalUpdate, hsel] at hs; exact absurd hs (by simp)
  · cases hd : env.dqbuf with
    | error e =>
      rcases hm with hm | hm <;> cases e <;>
        simp [internalUpdate, readFrame, hsel, hm, hd] at hs
    | ok d =>
      cases hq : env.qbufOk with
      | false =>
        rcases hm with hm | hm <;>
          simp [internalUpdate, readFrame, hsel, hm, hd, hq] at hs
      | true =>
        refine ⟨d, rfl, rfl, ?_⟩
        rcases hm with hm | hm <;>
          simp [internalUpdate, readFrame, hsel, hm, hd, hq]

/-- A cycle of a streaming session keeps the io method, the buffers, the
    descriptor and BufferCount; only FrameNumber can change. -/
theorem internalUpdate_preserves (st : SessionState) (env : UpdateEnv) :
    (internalUpdate st env).2.1.ioMethod = st.ioMethod ∧
    (internalUpdate st env).2.1.frames = st.frames ∧
    (internalUpdate st env).2.1.bufferCount = st.bufferCount ∧
    (internalUpdate st env).2.1.fileDescriptor = st.fileDescriptor := by
  cases hsel : env.selectResult
  · simp [internalUpdate, hsel]
  · simp [internalUpdate, hsel]
  · rcases hrf : readFrame st env with ⟨ro, tr⟩
    cases ro <;> simp [internalUpdate, hsel, hrf]

/-- Driving a streaming session through one ready, dequeue-ok, requeue-ok
    environment per list entry produces the concatenation of one
    dequeue-then-requeue pair per cycle. -/
theorem runCycles_trace (st : SessionState) (es : List UpdateEnv)
    (hm : st.ioMethod = IOMethod.ioMmap ∨ st.ioMethod = IOMethod.ioUserptr)
    (hok : ∀ e ∈ es, e.selectResult = SelectRes.selReady ∧
             (∃ d, e.dqbuf = Except.ok d) ∧ e.qbufOk = true) :
    ∃ ds : List BufDesc, ds.length = es.length ∧
      (runCycles st es).2 =
        (ds.map (fun d => [Event.dequeue d, Event.requeue d])).flatten ∧
      (runCycles st es).1.frameNumber = st.frameNumber + es.length := by
  induction es generalizing st with
  | nil => exact ⟨[], rfl, rfl, rfl⟩
  | cons e es ih =>
    rcases hok e (List.mem_cons_self e es) with ⟨hsel, ⟨d, hd⟩, hq⟩
    have hstep := internalUpdate_ok_cycle st e d hm hsel hd hq
    have hm' : ({ st with frameNumber := st.frameNumber + 1 } : SessionState).ioMethod =
        IOMethod.ioMmap ∨
        ({ st with frameNumber := st.frameNumber + 1 } : SessionState).ioMethod =
        IOMethod.ioUserptr := by simpa using hm
    rcases ih { st with frameNumber := st.frameNumber + 1 } hm'
      (fun e' he' => hok e' (List.mem_cons_of_mem e he')) with ⟨ds, hlen, htr, hfn⟩
    rcases hrun : runCycles { st with frameNumber := st.frameNumber + 1 } es
      with ⟨stf, trs⟩
    rw [hrun] at htr hfn
    refine ⟨d :: ds, by simp [hlen], ?_, ?_⟩
    · simp only [runCycles, hstep, hrun]
      simp only at htr
      simp [htr]
    · simp only [runCycles, hstep, hrun]
      simp only at hfn
      simp at hfn ⊢
      omega

/-- Counting requeues over a concatenation of dequeue-requeue pairs gives
    the number of pairs. -/
theorem blockTrace_countP_requeue (ds : List BufDesc) :
    ((ds.map (fun d => [Event.dequeue d, Event.requeue d])).flatten).countP
      isRequeueEv = ds.length := by
  induction ds with
  | nil => rfl
  | cons d ds ih => simpa [isRequeueEv] using ih

/-- Counting dequeues over a concatenation of dequeue-requeue pairs gives
    the number of pairs. -/
theorem blockTrace_countP_dequeue (ds : List BufDesc) :
    ((ds.map (fun d => [Event.dequeue d, Event.requeue d])).flatten).countP
      isDequeueEv = ds.length := by
  induction ds with
  | nil => rfl
  | cons d ds ih => simpa [isDequeueEv] using ih

/-- A concatenation of dequeue-requeue pairs contains no release or
    teardown event. -/
theorem blockTrace_countP_teardown (ds : List BufDesc) :
    ((ds.map (fun d => [Event.dequeue d, Event.requeue d])).flatten).countP
      isTeardown = 0 := by
  induction ds with
  | nil => rfl
  | cons d ds ih => simpa [isTeardown] using ih

/-- A concatenation of dequeue-requeue pairs never requeues twice in a
    row without an intervening dequeue, whatever the scan starts as. -/
theorem blockTrace_noDouble (ds : List BufDesc) :
    ∀ b, noDoubleRequeueAux b
      ((ds.map (fun d => [Event.dequeue d, Event.requeue d])).flatten) = true := by
  induction ds with
  | nil => intro b; rfl
  | cons d ds ih => intro b; simpa [noDoubleRequeueAux] using ih true

/-- Claim C8: in the streaming methods every successful cycle performs
    exactly one dequeue of a completed descriptor immediately followed by
    one requeue of that same descriptor, so K consecutive successful
    cycles produce exactly K requeues and K dequeues, no requeue ever
    happens twice in a row without an intervening dequeue, and no buffer
    is freed or unmapped during steady-state operation. -/
theorem claim8_dequeue_requeue_pairing (st : SessionState) (es : List UpdateEnv)
    (hm : st.ioMethod = IOMethod.ioMmap ∨ st.ioMethod = IOMethod.ioUserptr)
    (hok : ∀ e ∈ es, e.selectResult = SelectRes.selReady ∧
             (∃ d, e.dqbuf = Except.ok d) ∧ e.qbufOk = true) :
    ((runCycles st es).2).countP isRequeueEv = es.length ∧
    ((runCycles st es).2).countP isDequeueEv = es.length ∧
    noDoubleRequeue ((runCycles st es).2) = true ∧
    ((runCycles st es).2).countP isTeardown = 0 ∧
    (runCycles st es).1.frameNumber = st.frameNumber + es.length ∧
    (∀ (st' : SessionState) (e : UpdateEnv),
       (st'.ioMethod = IOMethod.ioMmap ∨ st'.ioMethod = IOMethod.ioUserptr) →
       (internalUpdate st' e).1 = CycleResult.cycleSuccess →
       ∃ d, e.dqbuf = Except.ok d ∧
         (internalUpdate st' e).2.2 = [Event.dequeue d, Event.requeue d]) := by
  rcases runCycles_trace st es hm hok with ⟨ds, hlen, htr, hfn⟩
  rw [htr]
  refine ⟨?_, ?_, blockTrace_noDouble ds false, blockTrace_countP_teardown ds,
    hfn, ?_⟩
  · rw [← hlen]; exact blockTrace_countP_requeue ds
  · rw [← hlen]; exact blockTrace_countP_dequeue ds
  · intro st' e hm' hs
    rcases internalUpdate_success_shape st' e hm' hs with ⟨d, hd, hq, htr'⟩
    exact ⟨d, hd, htr'⟩

/-- Cycle environment dequeuing buffer index 0. -/
def cycEnvA : UpdateEnv :=
  { selectResult := SelectRes.selReady
    readResult := none
    dqbuf := Except.ok ⟨0, 0, 0⟩
    qbufOk := true }

/-- Cycle environment dequeuing buffer index 1. -/
def cycEnvB : UpdateEnv :=
  { selectResult := SelectRes.selReady
    readResult := none
    dqbuf := Except.ok ⟨1, 0, 0⟩
    qbufOk := true }

/-- Witness for claim C8: two consecutive successful kernel-mapped cycles
    produce two requeues, two dequeues, no double requeue and no
    teardown event. -/
theorem claim8_witness :
    ((runCycles (initialState IOMethod.ioMmap) [cycEnvA, cycEnvB]).2).countP
      isRequeueEv = 2 ∧
    ((runCycles (initialState IOMethod.ioMmap) [cycEnvA, cycEnvB]).2).countP
      isDequeueEv = 2 ∧
    noDoubleRequeue ((runCycles (initialState IOMethod.ioMmap) [cycEnvA, cycEnvB]).2) =
      true ∧
    ((runCycles (initialState IOMethod.ioMmap) [cycEnvA, cycEnvB]).2).countP
      isTeardown = 0 := by
  have h := claim8_dequeue_requeue_pairing (initialState IOMethod.ioMmap)
    [cycEnvA, cycEnvB] (Or.inl rfl) ?hok
  · exact ⟨h.1, h.2.1, h.2.2.1, h.2.2.2.1⟩
  · intro e he
    simp only [List.mem_cons, List.mem_singleton] at he
    rcases he with rfl | rfl | h'
    · exact ⟨rfl, ⟨⟨0, 0, 0⟩, rfl⟩, rfl⟩
    · exact ⟨rfl, ⟨⟨1, 0, 0⟩, rfl⟩, rfl⟩
    · exact absurd h' (by simp)

/-- A disconnect environment in which every munmap and the close
    succeed. -/
def allOkDisconnect : DisconnectEnv :=
  { munmapOk := fun _ _ => true
    closeOk := true }

/-- Claim C3 as stated is false at a concrete input: a clean kernel-mapped
    connect granting 4 buffers followed by a clean disconnect succeeds,
    but BufferCount afterwards is still 4, not its pre-connect value 0:
    InternalDisconnect never resets it. -/
theorem claim3_bufferCount_not_reset_cex :
    (internalConnect (initialState IOMethod.ioMmap) formatDemoEnv).1 =
      ConnectOutcome.connected ∧
    (internalDisconnect
      (internalConnect (initialState IOMethod.ioMmap) formatDemoEnv).2.1
      allOkDisconnect).1 = PlusStatus.success ∧
    (internalDisconnect
      (internalConnect (initialState IOMethod.ioMmap) formatDemoEnv).2.1
      allOkDisconnect).2.1.bufferCount = 4 ∧
    (internalDisconnect
      (internalConnect (initialState IOMethod.ioMmap) formatDemoEnv).2.1
      allOkDisconnect).2.1.bufferCount ≠ 0 := by
  refine ⟨by decide, by decide, by decide, by decide⟩

/-- When every query and every mapping in range succeed, the
    query-and-map loop succeeds and appends one mapped buffer, and one
    mapping event, per index in its range. -/
theorem initMmapLoop_clean (env : ConnectEnv) (L O A : Nat → Nat) :
    ∀ (r i : Nat) (acc : List FrameBuffer) (tr : List Event),
      (∀ j, i ≤ j → j < i + r →
        env.querybuf j = some (L j, O j) ∧ env.mmapAddr j (L j) = some (A j)) →
      initMmapLoop env i r acc tr =
        (ConnectOutcome.connected, i + r,
         acc ++ (List.range' i r).map (fun j => ⟨some (A j), L j⟩),
         tr ++ (List.range' i r).map (fun j => Event.mapRegion (A j) (L j))) := by
  intro r
  induction r with
  | zero => intro i acc tr _; simp [initMmapLoop]
  | succ r' ih =>
    intro i acc tr h
    rcases h i (Nat.le_refl i) (by omega) with ⟨hq, hm⟩
    have hrec := ih (i + 1) (acc ++ [⟨some (A i), L i⟩])
      (tr ++ [Event.mapRegion (A i) (L i)])
      (fun j hj1 hj2 => h j (by omega) (by omega))
    simp only [initMmapLoop, hq, hm]
    rw [hrec, List.range'_succ]
    simp
    omega

/-- With every munmap succeeding, the disconnect unmap loop emits one
    unmap event per FrameBuffer entry and reports success. -/
theorem disconnectMmapLoop_allOk (env : DisconnectEnv)
    (h : ∀ a l, env.munmapOk a l = true) :
    ∀ (frames : List FrameBuffer) (tr : List Event),
      disconnectMmapLoop env frames tr =
        (true, tr ++ frames.map (fun fb => Event.unmapRegion fb.start fb.length)) := by
  intro frames
  induction frames with
  | nil => intro tr; simp [disconnectMmapLoop]
  | cons fb rest ih =>
    intro tr
    rw [disconnectMmapLoop, h fb.start fb.length]
    simp only [if_true, ih]
    simp

/-- Claim C3 amended: for every transport mode, a successful clean Connect
    followed immediately by a Disconnect in which every munmap and the
    close succeed releases every FrameBuffer in the mode-appropriate way
    (the one heap buffer freed for DirectRead, every mapped region
    unmapped for KernelMapped, all 4 heap buffers freed for UserPointer),
    then frees the buffer container, then closes the device handle last
    and sets FileDescriptor to the invalid value; the releases mirror the
    acquisitions of Connect in reverse step order.  However BufferCount is
    not reset to its pre-connect value 0: it stays 0 for DirectRead only
    because that mode never sets it, and it remains at the granted count
    for KernelMapped and at 4 for UserPointer. -/
theorem claim3_disconnect_releases_amended :
    (∀ (env : ConnectEnv) (denv : DisconnectEnv) (fd a : Nat)
       (cap : Capabilities) (gw gh gpf gfield gsize : Nat) (adj : PixFormat),
       env.statOk = true → env.isChr = true → env.openFd = some fd →
       env.querycap = some cap → cap.videoCapture = true → cap.readwrite = true →
       env.gfmt = some ⟨gw, gh, gpf, gfield, gsize⟩ →
       env.sfmt ⟨640, 480, V4L2_PIX_FMT_YUYV, V4L2_FIELD_INTERLACED, gsize⟩ = some adj →
       env.framesAllocOk = true → env.mallocAddr 0 = some a →
       denv.closeOk = true →
       (internalConnect (initialState IOMethod.ioRead) env).1 =
         ConnectOutcome.connected ∧
       (internalConnect (initialState IOMethod.ioRead) env).2.2 =
         [Event.openDev fd, Event.allocFrames 1, Event.heapAlloc a adj.sizeimage] ∧
       internalDisconnect (internalConnect (initialState IOMethod.ioRead) env).2.1 denv =
         (PlusStatus.success,
          { (internalConnect (initialState IOMethod.ioRead) env).2.1 with
            fileDescriptor := -1 },
          [Event.heapFree (some a), Event.freeFrames, Event.closeDev]) ∧
       (internalDisconnect (internalConnect (initialState IOMethod.ioRead) env).2.1
         denv).2.1.bufferCount = 0) ∧
    (∀ (env : ConnectEnv) (denv : DisconnectEnv) (fd count : Nat)
       (cap : Capabilities) (gw gh gpf gfield gsize : Nat) (adj : PixFormat)
       (L O A : Nat → Nat),
       env.statOk = true → env.isChr = true → env.openFd = some fd →
       env.querycap = some cap → cap.videoCapture = true → cap.streaming = true →
       env.gfmt = some ⟨gw, gh, gpf, gfield, gsize⟩ →
       env.sfmt ⟨640, 480, V4L2_PIX_FMT_YUYV, V4L2_FIELD_INTERLACED, gsize⟩ = some adj →
       env.reqbufs = some count → 2 ≤ count → env.framesAllocOk = true →
       (∀ j, j < count →
         env.querybuf j = some (L j, O j) ∧ env.mmapAddr j (L j) = some (A j)) →
       (∀ p l, denv.munmapOk p l = true) → denv.closeOk = true →
       (internalConnect (initialState IOMethod.ioMmap) env).1 =
         ConnectOutcome.connected ∧
       (internalConnect (initialState IOMethod.ioMmap) env).2.2 =
         Event.openDev fd :: Event.allocFrames count ::
           (List.range' 0 count).map (fun j => Event.mapRegion (A j) (L j)) ∧
       internalDisconnect (internalConnect (initialState IOMethod.ioMmap) env).2.1 denv =
         (PlusStatus.success,
          { (internalConnect (initialState IOMethod.ioMmap) env).2.1 with
            fileDescriptor := -1 },
          (List.range' 0 count).map (fun j => Event.unmapRegion (some (A j)) (L j)) ++
            [Event.freeFrames, Event.closeDev]) ∧
       (internalDisconnect (internalConnect (initialState IOMethod.ioMmap) env).2.1
         denv).2.1.bufferCount = count) ∧
    (∀ (env : ConnectEnv) (denv : DisconnectEnv) (fd : Nat)
       (cap : Capabilities) (gw gh gpf gfield gsize : Nat) (adj : PixFormat)
       (reported : Nat) (A : Nat → Nat),
       env.statOk = true → env.isChr = true → env.openFd = some fd →
       env.querycap = some cap → cap.videoCapture = true → cap.streaming = true →
       env.gfmt = some ⟨gw, gh, gpf, gfield, gsize⟩ →
       env.sfmt ⟨640, 480, V4L2_PIX_FMT_YUYV, V4L2_FIELD_INTERLACED, gsize⟩ = some adj →
       env.reqbufs = some reported → env.framesAllocOk = true →
       (∀ j, j < 4 → env.mallocAddr j = some (A j)) →
       denv.closeOk = true →
       (internalConnect (initialState IOMethod.ioUserptr) env).1 =
         ConnectOutcome.connected ∧
       (internalConnect (initialState IOMethod.ioUserptr) env).2.2 =
         Event.openDev fd :: Event.allocFrames 4 ::
           (List.range' 0 4).map (fun j => Event.heapAlloc (A j) adj.sizeimage) ∧
       internalDisconnect (internalConnect (initialState IOMethod.ioUserptr) env).2.1 denv =
         (PlusStatus.success,
          { (internalConnect (initialState IOMethod.ioUserptr) env).2.1 with
            fileDescriptor := -1 },
          (List.range' 0 4).map (fun j => Event.heapFree (some (A j))) ++
            [Event.freeFrames, Event.closeDev]) ∧
       (internalDisconnect (internalConnect (initialState IOMethod.ioUserptr) env).2.1
         denv).2.1.bufferCount = 4) := by
  refine ⟨?_, ?_, ?_⟩
  · intro env denv fd a cap gw gh gpf gfield gsize adj
      hstat hchr hopen hqc hvc hrw hg hs hfa hma hclose
    have hconn : internalConnect (initialState IOMethod.ioRead) env =
        (ConnectOutcome.connected,
         { fileDescriptor := (fd : Int), requestedFormat := adj,
           frames := [⟨some a, adj.sizeimage⟩], bufferCount := 0,
           frameNumber := 0, forceFormat := false, ioMethod := IOMethod.ioRead },
         [Event.openDev fd, Event.allocFrames 1, Event.heapAlloc a adj.sizeimage]) := by
      simp [internalConnect, initialState, hstat, hchr, hopen, hqc, hvc, hrw,
        hg, hs, initRead, hfa, hma]
    rw [hconn]
    refine ⟨rfl, rfl, ?_, ?_⟩
    · simp [internalDisconnect, hclose, List.getD]
    · simp [internalDisconnect, hclose, List.getD]
  · intro env denv fd count cap gw gh gpf gfield gsize adj L O A
      hstat hchr hopen hqc hvc hstr hg hs hrb h2 hfa hbuf hmun hclose
    have hcn : ¬ count < 2 := by omega
    have hloop := initMmapLoop_clean env L O A count 0 [] [Event.allocFrames count]
      (fun j hj1 hj2 => hbuf j (by omega))
    have hconn : internalConnect (initialState IOMethod.ioMmap) env =
        (ConnectOutcome.connected,
         { fileDescriptor := (fd : Int), requestedFormat := adj,
           frames := (List.range' 0 count).map
             (fun j => (⟨some (A j), L j⟩ : FrameBuffer)),
           bufferCount := count, frameNumber := 0, forceFormat := false,
           ioMethod := IOMethod.ioMmap },
         Event.openDev fd :: Event.allocFrames count ::
           (List.range' 0 count).map (fun j => Event.mapRegion (A j) (L j))) := by
      simp [internalConnect, initialState, hstat, hchr, hopen, hqc, hvc, hstr,
        hg, hs, initMmap, hrb, hcn, hfa, hloop]
    rw [hconn]
    have hlenf : ((List.range' 0 count).map
        (fun j => (⟨some (A j), L j⟩ : FrameBuffer))).length = count := by simp
    have htake : ((List.range' 0 count).map
        (fun j => (⟨some (A j), L j⟩ : FrameBuffer))).take count =
        (List.range' 0 count).map (fun j => (⟨some (A j), L j⟩ : FrameBuffer)) :=
      List.take_of_length_le (le_of_eq hlenf)
    have hrel := disconnectMmapLoop_allOk denv hmun
      ((List.range' 0 count).map (fun j => (⟨some (A j), L j⟩ : FrameBuffer))) []
    refine ⟨rfl, rfl, ?_, ?_⟩
    · simp only [internalDisconnect, htake, hrel, hclose]
      simp [List.map_map, Function.comp]
    · simp only [internalDisconnect, htake, hrel, hclose]
      simp
  · intro env denv fd cap gw gh gpf gfield gsize adj reported A
      hstat hchr hopen hqc hvc hstr hg hs hrb hfa hma hclose
    have hloop := initUserpLoop_clean env adj.sizeimage A 4 0 []
      [Event.allocFrames 4] (fun j hj1 hj2 => hma j (by omega))
    have hconn : internalConnect (initialState IOMethod.ioUserptr) env =
        (ConnectOutcome.connected,
         { fileDescriptor := (fd : Int), requestedFormat := adj,
           frames := (List.range' 0 4).map
             (fun j => (⟨some (A j), adj.sizeimage⟩ : FrameBuffer)),
           bufferCount := 4, frameNumber := 0, forceFormat := false,
           ioMethod := IOMethod.ioUserptr },
         Event.openDev fd :: Event.allocFrames 4 ::
           (List.range' 0 4).map (fun j => Event.heapAlloc (A j) adj.sizeimage)) := by
      simp [internalConnect, initialState, hstat, hchr, hopen, hqc, hvc, hstr,
        hg, hs, initUserp, hrb, hfa, hloop]
    rw [hconn]
    have hlenf : ((List.range' 0 4).map
        (fun j => (⟨some (A j), adj.sizeimage⟩ : FrameBuffer))).length = 4 := by simp
    have htake : ((List.range' 0 4).map
        (fun j => (⟨some (A j), adj.sizeimage⟩ : FrameBuffer))).take 4 =
        (List.range' 0 4).map (fun j => (⟨some (A j), adj.sizeimage⟩ : FrameBuffer)) :=
      List.take_of_length_le (le_of_eq hlenf)
    refine ⟨rfl, rfl, ?_, ?_⟩
    · simp only [internalDisconnect, htake, hclose]
      simp [List.map_map, Function.comp]
    · simp only [internalDisconnect, htake, hclose]
      simp

/-- Witness for claim C3 at the concrete clean kernel-mapped device
    granting 4 buffers: everything is released and closed, and
    BufferCount ends at 4. -/
theorem claim3_witness :
    (internalConnect (initialState IOMethod.ioMmap) formatDemoEnv).1 =
      ConnectOutcome.connected ∧
    (internalConnect (initialState IOMethod.ioMmap) formatDemoEnv).2.2 =
      Event.openDev 3 :: Event.allocFrames 4 ::
        (List.range' 0 4).map (fun _ => Event.mapRegion 4096 614400) ∧
    internalDisconnect
      (internalConnect (initialState IOMethod.ioMmap) formatDemoEnv).2.1
      allOkDisconnect =
      (PlusStatus.success,
       { (internalConnect (initialState IOMethod.ioMmap) formatDemoEnv).2.1 with
         fileDescriptor := -1 },
       (List.range' 0 4).map (fun _ => Event.unmapRegion (some 4096) 614400) ++
         [Event.freeFrames, Event.closeDev]) ∧
    (internalDisconnect
      (internalConnect (initialState IOMethod.ioMmap) formatDemoEnv).2.1
      allOkDisconnect).2.1.bufferCount = 4 :=
  claim3_disconnect_releases_amended.2.1 formatDemoEnv allOkDisconnect 3 4
    ⟨true, true, true⟩ 320 240 V4L2_PIX_FMT_GREY V4L2_FIELD_NONE 76800
    ⟨640, 480, V4L2_PIX_FMT_YUYV, V4L2_FIELD_INTERLACED, 76800⟩
    (fun _ => 614400) (fun _ => 0) (fun _ => 4096)
    rfl rfl rfl rfl rfl rfl rfl rfl rfl (by omega) rfl
    (fun _ _ => ⟨rfl, rfl⟩) (fun _ _ => rfl) rfl

end V4L2
